import Mathlib

/-!
# christmasd: session protocol engine

A shallow embedding of `lib/christmasd/christmasd.go` and `internal/xcolor/rgb.go`.

* Machine integers are natural numbers or integers with explicit reduction
  (`% 256` for `uint8`, `% 2^32` for `uint32`, two's complement wrapping for `int`).
* Go errors are represented by their message (`err.Error()`); `nil` is `none`.
* The effects of `Session.mainLoop` (messages handed to `ws.Send`, calls of the
  `LEDController` methods) are recorded, in order, in a trace.
* The `select` in `mainLoop` is driven by a schedule: the list of the cases that
  were chosen, in order.
-/

namespace xcolor

/-- RGB is a colour in the RGB colour space (`type RGB struct { R, G, B uint8 }`). -/
structure RGB where
  R : Nat
  G : Nat
  B : Nat
deriving DecidableEq, Repr

/-- The values of the Go type: every field is a `uint8`. -/
def RGB.valid (c : RGB) : Prop := c.R < 256 ∧ c.G < 256 ∧ c.B < 256

instance (c : RGB) : Decidable c.valid := by
  unfold RGB.valid; infer_instance

/-- RGBFromUint converts an integer to RGB (`uint8(u >> 16)`, `uint8(u >> 8)`, `uint8(u)`). -/
def RGBFromUint (u : Nat) : RGB :=
  { R := (u >>> 16) % 256
    G := (u >>> 8) % 256
    B := u % 256 }

/-- ToUint converts the RGB colour to an integer
(`uint32(c.R)<<16 | uint32(c.G)<<8 | uint32(c.B)`). -/
def RGB.ToUint (c : RGB) : Nat :=
  (((c.R <<< 16) % 2 ^ 32) ||| ((c.G <<< 8) % 2 ^ 32) ||| c.B) % 2 ^ 32

end xcolor

namespace christmaspb

/-- LEDClientMessage is a message from the client to the server: the value of its
`Message` oneof. The generated protobuf package is not part of the sources; the cases
and fields are the ones `Session.mainLoop` reads. `Unset` is a message whose oneof is
not set. -/
inductive LEDClientMessage where
  | Authenticate (secret : String)
  | GetLeds
  | SetLeds (leds : List Nat)
  | GetLedCanvasInfo
  | SetLedCanvas (pixels : List Nat)
  | Unset
deriving DecidableEq, Repr

/-- LEDServerMessage is a message from the server to the client, as built in
`Session.mainLoop`. -/
inductive LEDServerMessage where
  | Authenticate (success : Bool)
  | GetLeds (leds : List Nat)
  | GetLedCanvasInfo (width height : Nat)
deriving DecidableEq, Repr

/-- GetAuthenticate is the nil-safe getter of the `Authenticate` case: the secret of an
`Authenticate` message, `none` for every other message and for the nil message. -/
def GetAuthenticate : Option LEDClientMessage → Option String
  | some (.Authenticate secret) => some secret
  | _ => none

end christmaspb

namespace image

/-- RGBA is the `image.RGBA` value: rectangle (`Min`, `Max`), stride and pixel bytes. -/
structure RGBA where
  Rect : (Int × Int) × (Int × Int)
  Stride : Int
  Pix : List Nat
deriving DecidableEq, Repr

/-- Rect is `image.Rect(x0, y0, x1, y1)`: the rectangle with the coordinates put in
order. -/
def Rect (x0 y0 x1 y1 : Int) : (Int × Int) × (Int × Int) :=
  ((if x0 > x1 then x1 else x0, if y0 > y1 then y1 else y0),
   (if x0 > x1 then x0 else x1, if y0 > y1 then y0 else y1))

end image

namespace christmasd

open xcolor christmaspb

/-- Config is the configuration for handling. -/
structure Config where
  Secret : String
deriving DecidableEq, Repr

/-- The Go `int` (64 bits, two's complement): the representative of `x` in
`[-2^63, 2^63)`. -/
def wrapInt (x : Int) : Int := (x + 2 ^ 63) % 2 ^ 64 - 2 ^ 63

/-- The product `a * b` of two Go `int` values. -/
def mulInt (a b : Int) : Int := wrapInt (a * b)

/-- The conversion `uint32(x)` of an `int`. -/
def toUint32 (x : Int) : Nat := (x % 2 ^ 32).toNat

/-- Modelled from the spec: the `LEDController` interface, whose declaration is not
part of the sources. The methods are the ones `Session.mainLoop` calls, over an explicit
controller state `σ`. As in the controller contract of the spec (`readAll`,
`canvasSize`), `LEDs` and `ImageSize` only read the state; `SetLEDs` and `DrawImage`
return the new state and the error (`none` for nil). -/
structure LEDController (σ : Type) where
  LEDs : σ → List RGB
  SetLEDs : σ → List RGB → σ × Option String
  ImageSize : σ → Int × Int
  DrawImage : σ → image.RGBA → σ × Option String

/-- Session is a websocket session: the captured configuration, and `id`, the identity
of the `*Session` pointer. The mutable `state` field lives in `LoopState`. -/
structure Session where
  id : Nat
  cfg : Config
deriving DecidableEq, Repr

abbrev sessionState := Nat

def stateInitial : sessionState := 0

def stateAuthenticated : sessionState := 1

def errNotAuthenticated : String := "not authenticated"

def errInvalidSecret : String := "invalid secret"

/-- One observable effect of a session: a message handed to `s.ws.Send`, an error
handed to `s.ws.SendError`, or a call of a method of `s.opts.LEDController` (with its
argument). -/
inductive Event where
  | Send (msg : LEDServerMessage)
  | SendError (err : String)
  | LEDs
  | SetLEDs (leds : List RGB)
  | ImageSize
  | DrawImage (img : image.RGBA)
deriving DecidableEq, Repr

/-- The case chosen by one execution of the `select` in `mainLoop`: `ctx.Done()` is
closed, or a receive from `s.ws.Messages` (`none` is the nil message a closed channel
yields). -/
inductive Selected where
  | Done
  | Messages (msg : Option LEDClientMessage)
deriving DecidableEq, Repr

/-- How `mainLoop` ends: it returns (`none` is the nil error), or it panics with an
index out of range. -/
inductive Outcome where
  | returned (err : Option String)
  | panicked
deriving DecidableEq, Repr

/-- Everything `mainLoop` reads and writes: the session's atomic `state`, the state of
the controller, the two scratch buffers, and the trace of effects so far. -/
structure LoopState (σ : Type) where
  state : sessionState
  ctl : σ
  bufPbLED : List Nat
  bufCtLED : List RGB
  trace : List Event

/-- Record one effect at the end of the trace. -/
def LoopState.emit {σ : Type} (ls : LoopState σ) (e : Event) : LoopState σ :=
  { ls with trace := ls.trace ++ [e] }

/-- CompareAndSwap on the atomic state: the new value and whether the swap happened. -/
def CompareAndSwap (cur old new : sessionState) : sessionState × Bool :=
  if cur = old then (new, true) else (cur, false)

/-- The loop `for i, x := range xs { buf[i] = f(x) }`, from index `i` on; `none` is the
index-out-of-range panic. -/
def rangeStore {α β : Type} (f : α → β) : List α → Nat → List β → Option (List β)
  | [], _, buf => some buf
  | x :: xs, i, buf =>
    if i < buf.length then rangeStore f xs (i + 1) (buf.set i (f x)) else none

/-- One iteration of the `for { select { ... } }` of `Session.mainLoop`, for the chosen
case: the new loop state, and the outcome when the iteration leaves the loop (`none`
when the loop goes on to the next `select`). -/
def iteration {σ : Type} (c : LEDController σ) (s : Session) (ls : LoopState σ) :
    Selected → LoopState σ × Option Outcome
  | .Done => (ls, some (.returned none))
  | .Messages msg =>
    match GetAuthenticate msg with
    | some secret =>
      if secret ≠ s.cfg.Secret then
        (ls.emit (.Send (.Authenticate false)), some (.returned (some errInvalidSecret)))
      else
        match CompareAndSwap ls.state stateInitial stateAuthenticated with
        | (st, false) =>
          ({ ls with state := st }, some (.returned (some "already authenticated")))
        | (st, true) =>
          (LoopState.emit { ls with state := st } (.Send (.Authenticate true)), none)
    | none =>
      if ls.state ≠ stateAuthenticated then
        (ls, some (.returned (some errNotAuthenticated)))
      else
        match msg with
        | some .GetLeds =>
          let ctLEDs := c.LEDs ls.ctl
          let ls1 := ls.emit .LEDs
          match rangeStore RGB.ToUint ctLEDs 0 ls1.bufPbLED with
          | none => (ls1, some .panicked)
          | some buf =>
            (LoopState.emit { ls1 with bufPbLED := buf } (.Send (.GetLeds buf)), none)
        | some (.SetLeds pbLEDs) =>
          if pbLEDs.length ≠ ls.bufCtLED.length then
            (ls, some (.returned
              (some ("invalid number of LEDs: " ++ toString pbLEDs.length))))
          else
            match rangeStore RGBFromUint pbLEDs 0 ls.bufCtLED with
            | none => (ls, some .panicked)
            | some buf =>
              let r := c.SetLEDs ls.ctl buf
              let ls1 := LoopState.emit { ls with bufCtLED := buf, ctl := r.1 } (.SetLEDs buf)
              match r.2 with
              | some err => (ls1, some (.returned (some ("failed to set LEDs: " ++ err))))
              | none => (ls1, none)
        | some .GetLedCanvasInfo =>
          let wh := c.ImageSize ls.ctl
          let ls1 := ls.emit .ImageSize
          (ls1.emit (.Send (.GetLedCanvasInfo (toUint32 wh.1) (toUint32 wh.2))), none)
        | some (.SetLedCanvas pixels) =>
          let wh := c.ImageSize ls.ctl
          let ls1 := ls.emit .ImageSize
          let img : image.RGBA :=
            { Rect := image.Rect 0 0 wh.1 wh.2
              Stride := mulInt wh.1 4
              Pix := pixels }
          if (img.Pix.length : Int) ≠ mulInt (mulInt wh.1 wh.2) 4 then
            (ls1, some (.returned (some "invalid image size")))
          else
            let r := c.DrawImage ls1.ctl img
            let ls2 := LoopState.emit { ls1 with ctl := r.1 } (.DrawImage img)
            match r.2 with
            | some err => (ls2, some (.returned (some ("failed to draw image: " ++ err))))
            | none => (ls2, none)
        | _ => (ls, none)

/-- The `for` loop of `Session.mainLoop` driven by a schedule of `select` choices: the
loop state reached and how the loop ended; `none` when the schedule is used up and the
loop is blocked in the `select`, waiting. -/
def loop {σ : Type} (c : LEDController σ) (s : Session) :
    LoopState σ → List Selected → LoopState σ × Option Outcome
  | ls, [] => (ls, none)
  | ls, x :: xs =>
    match iteration c s ls x with
    | (ls1, none) => loop c s ls1 xs
    | (ls1, some o) => (ls1, some o)

/-- Session.mainLoop: the two scratch buffers are allocated with the length of
`s.opts.LEDController.LEDs()` (two calls), then the loop runs. `state` is the value of
`s.state` and `ctl` the state of the controller when `mainLoop` is entered. -/
def Session.mainLoop {σ : Type} (c : LEDController σ) (s : Session) (state : sessionState)
    (ctl : σ) (schedule : List Selected) : LoopState σ × Option Outcome :=
  loop c s
    { state := state
      ctl := ctl
      bufPbLED := List.replicate (c.LEDs ctl).length 0
      bufCtLED := List.replicate (c.LEDs ctl).length { R := 0, G := 0, B := 0 }
      trace := [.LEDs, .LEDs] }
    schedule

/-- Modelled from the spec: the transport of one connection (`websocketServer`, whose
file is not part of the sources), as far as `Session.Start` depends on it: the schedule
the `select` of `mainLoop` observes, the error `ws.Start(ctx)` returns, the error
`ws.SendError(ctx, err)` returns, and whether the goroutine of `ws.Start` is the first of
the two to return. -/
structure Transport where
  schedule : List Selected
  Start : Option String
  SendError : String → Option String
  startFirst : Bool

/-- Session.Start: `ws.Start` and `mainLoop` run in one errgroup; an error of `mainLoop`
is handed to `ws.SendError`, whose result is what that goroutine returns; `errg.Wait()`
returns the first error that is not nil. The result is `none` when `mainLoop` does not
return (it is blocked, or it panicked), so that `Start` does not return either. -/
def Session.Start {σ : Type} (c : LEDController σ) (s : Session) (state : sessionState)
    (ctl : σ) (t : Transport) : LoopState σ × Option (Option String) :=
  match Session.mainLoop c s state ctl t.schedule with
  | (ls, none) => (ls, none)
  | (ls, some .panicked) => (ls, none)
  | (ls, some (.returned none)) => (ls, some t.Start)
  | (ls, some (.returned (some err))) =>
    (ls.emit (.SendError err),
      some (if t.startFirst then (t.Start).orElse (fun _ => t.SendError err)
            else (t.SendError err).orElse (fun _ => t.Start)))

/-- sessionControl holds the `context.CancelCauseFunc` of a session's context; `cancel`
names the context it cancels. -/
structure sessionControl where
  cancel : Nat
deriving DecidableEq, Repr

/-- Server handles all HTTP requests for the server: the shared configuration
(`atomic.Pointer[Config]`) and the registry `sync2.Map[*Session, sessionControl]`, an
association list keyed by the identity of the session (its order is the order in which
`Range` visits the entries). -/
structure Server where
  cfg : Config
  connections : List (Session × sessionControl)
deriving DecidableEq, Repr

/-- NewServer creates a new server. -/
def NewServer (cfg : Config) : Server :=
  { cfg := cfg, connections := [] }

/-- Delete removes the entry of the key `k`, if there is one. -/
def Map.Delete (m : List (Session × sessionControl)) (k : Session) :
    List (Session × sessionControl) :=
  m.filter (fun e => e.1.id != k.id)

/-- Store sets the value of the key `k`. -/
def Map.Store (m : List (Session × sessionControl)) (k : Session) (v : sessionControl) :
    List (Session × sessionControl) :=
  Map.Delete m k ++ [(k, v)]

/-- Range calls `f` on the entries one after the other, threading what `f` has done so
far; it stops when `f` returns false. -/
def Map.Range {α : Type} (f : Session → sessionControl → α → α × Bool) :
    List (Session × sessionControl) → α → α
  | [], a => a
  | (k, v) :: rest, a =>
    match f k v a with
    | (a1, true) => Map.Range f rest a1
    | (a1, false) => a1

/-- KickAllConnections kicks all connections from the server: the server afterwards, and
the calls `ctrl.cancel(err)` made, in order, each with the control it is made on and the
message of `err`. -/
def Server.KickAllConnections (srv : Server) (reason : String) :
    Server × List (sessionControl × String) :=
  let err := if reason ≠ "" then "kicked: " ++ reason else "kicked"
  (srv, Map.Range (fun _ ctrl calls => (calls ++ [(ctrl, err)], true)) srv.connections [])

/-- SetConfig sets the configuration for the server. -/
def Server.SetConfig (srv : Server) (cfg : Config) : Server :=
  { srv with cfg := cfg }

/-- SessionUpgrade upgrades an HTTP request to a websocket session. `upgrade` is the
error of `opts.HTTPUpgrader.Upgrade` (`none` when it succeeds) and `id` the identity of
the session that is allocated. -/
def SessionUpgrade (upgrade : Option String) (id : Nat) (cfg : Config) :
    Except String Session :=
  match upgrade with
  | some err => .error ("failed to upgrade HTTP: " ++ err)
  | none => .ok { id := id, cfg := cfg }

/-- What one call of `Server.ServeHTTP` leaves behind: the server, the loop state of the
session it ran (if it started one), and the response: `none` when `ServeHTTP` has not
returned, `some none` when it returned without `http.Error`, `some (some msg)` for
`http.Error(w, msg, 500)`. -/
structure Served (σ : Type) where
  srv : Server
  session : Option Session
  run : Option (LoopState σ)
  response : Option (Option String)

/-- ServeHTTP implements http.Handler. The session is created with the zero value of
`state`, which is `stateInitial`. -/
def Server.ServeHTTP {σ : Type} (srv : Server) (c : LEDController σ) (ctl : σ)
    (upgrade : Option String) (id : Nat) (cancel : sessionControl) (t : Transport) :
    Served σ :=
  match SessionUpgrade upgrade id srv.cfg with
  | .error err => { srv := srv, session := none, run := none, response := some (some err) }
  | .ok session =>
    let srv1 : Server := { srv with connections := Map.Store srv.connections session cancel }
    match Session.Start c session stateInitial ctl t with
    | (ls, none) => { srv := srv1, session := some session, run := some ls, response := none }
    | (ls, some (some err)) =>
      { srv := { srv1 with connections := Map.Delete srv1.connections session }
        session := some session
        run := some ls
        response := some (some err) }
    | (ls, some none) =>
      { srv := srv1, session := some session, run := some ls, response := some none }

/-- A session whose captured secret is "X". -/
def demoSession : Session := { id := 1, cfg := { Secret := "X" } }

/-- The state of `memController`: the LED colours and the last image drawn. -/
structure memState where
  leds : List RGB
  canvas : Option image.RGBA
deriving DecidableEq, Repr

/-- A controller that keeps the LED colours in memory and has a canvas of 2 by 1
pixels; its writes never fail. It serves to run the session on concrete inputs. -/
def memController : LEDController memState :=
  { LEDs := fun m => m.leds
    SetLEDs := fun m leds => ({ m with leds := leds }, none)
    ImageSize := fun _ => (2, 1)
    DrawImage := fun m img => ({ m with canvas := some img }, none) }

/-- A controller like `memController` whose canvas is `2^62` by 1 pixels, so that the
`int` product `w*h*4` overflows. -/
def wideController : LEDController memState :=
  { memController with ImageSize := fun _ => (2 ^ 62, 1) }

/-- Two LEDs and nothing drawn yet. -/
def demoLEDs : memState :=
  { leds := [{ R := 1, G := 2, B := 3 }, { R := 4, G := 5, B := 6 }], canvas := none }

/-- A connection whose context is cancelled before any message arrives (the first
`select` takes `ctx.Done()`); `ws.Start` returns the error `readErr`, and `ws.SendError`
succeeds. -/
def cancelledTransport (readErr : Option String) : Transport :=
  { schedule := [.Done]
    Start := readErr
    SendError := fun _ => none
    startFirst := true }

/-- A connection whose message source is closed before any message arrives (the first
`select` receives the nil message); `ws.Start` returns nil and `ws.SendError` succeeds. -/
def closedTransport : Transport :=
  { schedule := [.Messages none]
    Start := none
    SendError := fun _ => none
    startFirst := true }

end christmasd

/-! ## Auxiliary lemmas -/

namespace xcolor

theorem pack_eq (a b c : Nat) (ha : a < 256) (hb : b < 256) (hc : c < 256) :
    (((a <<< 16) % 2 ^ 32) ||| ((b <<< 8) % 2 ^ 32) ||| c) % 2 ^ 32
      = a * 65536 + b * 256 + c := by
  have h1 : (a <<< 16) % 2 ^ 32 = 2 ^ 16 * a := by
    rw [Nat.shiftLeft_eq]; omega
  have h2 : (b <<< 8) % 2 ^ 32 = b * 256 := by
    rw [Nat.shiftLeft_eq]; omega
  rw [h1, h2]
  have e1 : 2 ^ 16 * a ||| b * 256 = 2 ^ 8 * (a * 256 + b) := by
    rw [← Nat.mul_add_lt_is_or (by omega) a]; omega
  rw [e1, ← Nat.mul_add_lt_is_or (by omega) (a * 256 + b)]
  omega

end xcolor

namespace christmasd

open xcolor christmaspb

theorem rangeStore_length {α β : Type} (f : α → β) :
    ∀ (xs : List α) (i : Nat) (buf out : List β),
      rangeStore f xs i buf = some out → out.length = buf.length := by
  intro xs
  induction xs with
  | nil =>
    intro i buf out h
    simp only [rangeStore, Option.some.injEq] at h
    rw [← h]
  | cons x xs ih =>
    intro i buf out h
    simp only [rangeStore] at h
    split at h
    · have := ih _ _ _ h
      simpa using this
    · cases h

theorem rangeStore_spec {α β : Type} (f : α → β) :
    ∀ (xs : List α) (done old : List β), xs.length ≤ old.length →
      rangeStore f xs done.length (done ++ old)
        = some (done ++ xs.map f ++ old.drop xs.length) := by
  intro xs
  induction xs with
  | nil =>
    intro done old _
    simp [rangeStore]
  | cons x xs ih =>
    intro done old h
    cases old with
    | nil => simp at h
    | cons o old =>
      simp only [List.length_cons, Nat.add_le_add_iff_right] at h
      have hi : done.length < (done ++ o :: old).length := by simp
      have hset : (done ++ o :: old).set done.length (f x) = (done ++ [f x]) ++ old := by
        simp [List.set_append]
      have hlen : done.length + 1 = (done ++ [f x]).length := by simp
      simp only [rangeStore, hi, if_true, hset]
      rw [hlen, ih (done ++ [f x]) old h]
      simp

theorem rangeStore_eq_map {α β : Type} (f : α → β) (xs : List α) (buf : List β)
    (h : xs.length = buf.length) : rangeStore f xs 0 buf = some (xs.map f) := by
  have := rangeStore_spec f xs [] buf (by omega)
  simpa [h] using this

theorem loop_append {σ : Type} (c : LEDController σ) (s : Session) :
    ∀ (pre : List Selected) (ls ls1 : LoopState σ) (xs : List Selected),
      loop c s ls pre = (ls1, none) → loop c s ls (pre ++ xs) = loop c s ls1 xs := by
  intro pre
  induction pre with
  | nil =>
    intro ls ls1 xs h
    simp only [loop, Prod.mk.injEq, and_true] at h
    simp [h]
  | cons x pre ih =>
    intro ls ls1 xs h
    simp only [loop, List.cons_append] at h ⊢
    rcases hit : iteration c s ls x with ⟨ls2, _ | o⟩
    · rw [hit] at h
      simp only at h ⊢
      exact ih ls2 ls1 xs h
    · rw [hit] at h
      simp at h

theorem loop_append_ended {σ : Type} (c : LEDController σ) (s : Session) :
    ∀ (pre : List Selected) (ls ls1 : LoopState σ) (o : Outcome) (xs : List Selected),
      loop c s ls pre = (ls1, some o) → loop c s ls (pre ++ xs) = (ls1, some o) := by
  intro pre
  induction pre with
  | nil =>
    intro ls ls1 o xs h
    simp [loop] at h
  | cons x pre ih =>
    intro ls ls1 o xs h
    simp only [loop, List.cons_append] at h ⊢
    rcases hit : iteration c s ls x with ⟨ls2, _ | o2⟩
    · rw [hit] at h
      simp only at h ⊢
      exact ih ls2 ls1 o xs h
    · rw [hit] at h
      simpa using h

theorem iteration_buf_length {σ : Type} (c : LEDController σ) (s : Session)
    (ls : LoopState σ) (x : Selected) :
    (iteration c s ls x).1.bufPbLED.length = ls.bufPbLED.length ∧
    (iteration c s ls x).1.bufCtLED.length = ls.bufCtLED.length := by
  unfold iteration
  split
  · simp
  · split
    · split
      · simp [LoopState.emit]
      · split <;> simp [LoopState.emit]
    · split
      · simp
      · split
        · simp only [LoopState.emit]
          split
          · simp
          · rename_i buf hbuf
            simp [rangeStore_length _ _ _ _ _ hbuf]
        · split
          · simp
          · split
            · simp
            · rename_i buf hbuf
              simp only [LoopState.emit]
              split <;> simp [rangeStore_length _ _ _ _ _ hbuf]
        · simp [LoopState.emit]
        · simp only [LoopState.emit]
          split
          · simp
          · split <;> simp
        · simp

theorem loop_buf_length {σ : Type} (c : LEDController σ) (s : Session) :
    ∀ (xs : List Selected) (ls : LoopState σ),
      (loop c s ls xs).1.bufPbLED.length = ls.bufPbLED.length ∧
      (loop c s ls xs).1.bufCtLED.length = ls.bufCtLED.length := by
  intro xs
  induction xs with
  | nil => intro ls; simp [loop]
  | cons x xs ih =>
    intro ls
    have hx := iteration_buf_length c s ls x
    simp only [loop]
    rcases hit : iteration c s ls x with ⟨ls2, _ | o⟩
    · rw [hit] at hx
      simp only at hx ⊢
      have := ih ls2
      omega
    · rw [hit] at hx
      simpa using hx

theorem mainLoop_buf_length {σ : Type} (c : LEDController σ) (s : Session)
    (state : sessionState) (ctl : σ) (xs : List Selected) :
    (Session.mainLoop c s state ctl xs).1.bufPbLED.length = (c.LEDs ctl).length ∧
    (Session.mainLoop c s state ctl xs).1.bufCtLED.length = (c.LEDs ctl).length := by
  have := loop_buf_length c s xs
    { state := state
      ctl := ctl
      bufPbLED := List.replicate (c.LEDs ctl).length 0
      bufCtLED := List.replicate (c.LEDs ctl).length { R := 0, G := 0, B := 0 }
      trace := [.LEDs, .LEDs] }
  simpa [Session.mainLoop] using this

theorem mainLoop_append {σ : Type} (c : LEDController σ) (s : Session)
    (state : sessionState) (ctl : σ) (pre xs : List Selected) (ls : LoopState σ)
    (h : Session.mainLoop c s state ctl pre = (ls, none)) :
    Session.mainLoop c s state ctl (pre ++ xs) = loop c s ls xs :=
  loop_append c s pre _ ls xs h

theorem mainLoop_append_ended {σ : Type} (c : LEDController σ) (s : Session)
    (state : sessionState) (ctl : σ) (pre xs : List Selected) (ls : LoopState σ)
    (o : Outcome) (h : Session.mainLoop c s state ctl pre = (ls, some o)) :
    Session.mainLoop c s state ctl (pre ++ xs) = (ls, some o) :=
  loop_append_ended c s pre _ ls o xs h

theorem loop_one {σ : Type} (c : LEDController σ) (s : Session) (ls : LoopState σ)
    (x : Selected) : loop c s ls [x] = iteration c s ls x := by
  simp only [loop]
  rcases iteration c s ls x with ⟨ls2, _ | o⟩ <;> rfl

theorem loop_ended {σ : Type} (c : LEDController σ) (s : Session) (ls ls1 : LoopState σ)
    (x : Selected) (xs : List Selected) (o : Outcome)
    (h : iteration c s ls x = (ls1, some o)) : loop c s ls (x :: xs) = (ls1, some o) := by
  simp only [loop, h]

theorem iteration_state {σ : Type} (c : LEDController σ) (s : Session)
    (ls : LoopState σ) (x : Selected) :
    (iteration c s ls x).1.state = ls.state ∨
    (ls.state = stateInitial ∧ (iteration c s ls x).1.state = stateAuthenticated ∧
      x = .Messages (some (.Authenticate s.cfg.Secret))) := by
  cases x with
  | Done => left; rfl
  | Messages msg =>
    rcases msg with _ | (secret | _ | leds | _ | pixels | _)
    case some.Authenticate =>
      by_cases hsec : secret = s.cfg.Secret
      · by_cases hst : ls.state = stateInitial
        · right
          subst hsec
          simp [iteration, GetAuthenticate, CompareAndSwap, hst, LoopState.emit]
        · left
          simp [iteration, GetAuthenticate, CompareAndSwap, hst, hsec]
      · left
        simp [iteration, GetAuthenticate, hsec, LoopState.emit]
    all_goals
      left
      simp only [iteration, GetAuthenticate]
      repeat' split
      all_goals simp [LoopState.emit]

theorem loop_state {σ : Type} (c : LEDController σ) (s : Session) :
    ∀ (xs : List Selected) (ls : LoopState σ),
      (loop c s ls xs).1.state = ls.state ∨
      (ls.state = stateInitial ∧ (loop c s ls xs).1.state = stateAuthenticated) := by
  intro xs
  induction xs with
  | nil => intro ls; left; rfl
  | cons x xs ih =>
    intro ls
    have hx := iteration_state c s ls x
    simp only [loop]
    rcases hit : iteration c s ls x with ⟨ls2, _ | o⟩
    · rw [hit] at hx
      simp only at hx ⊢
      rcases ih ls2 with h2 | ⟨h2, h3⟩
      · rcases hx with h1 | ⟨h1, h1b, _⟩
        · left; rw [h2, h1]
        · right; exact ⟨h1, by rw [h2, h1b]⟩
      · rcases hx with h1 | ⟨h1, h1b, _⟩
        · right; exact ⟨by rw [← h1, h2], h3⟩
        · rw [h1b] at h2; cases h2
    · rw [hit] at hx
      simp only at hx ⊢
      rcases hx with h1 | ⟨h1, h1b, _⟩
      · left; exact h1
      · right; exact ⟨h1, h1b⟩

end christmasd

namespace christmasd

theorem Map.Delete_Store (m : List (Session × sessionControl)) (k : Session)
    (v : sessionControl) : Map.Delete (Map.Store m k v) k = Map.Delete m k := by
  simp [Map.Store, Map.Delete, List.filter_append, List.filter_filter]

theorem ServeHTTP_connections {σ : Type} (srv : Server) (c : LEDController σ) (ctl : σ)
    (id : Nat) (cancel : sessionControl) (t : Transport) :
    (Server.ServeHTTP srv c ctl none id cancel t).srv.connections
      = match (Server.ServeHTTP srv c ctl none id cancel t).response with
        | some (some _) => Map.Delete srv.connections { id := id, cfg := srv.cfg }
        | _ => Map.Store srv.connections { id := id, cfg := srv.cfg } cancel := by
  simp only [Server.ServeHTTP, SessionUpgrade]
  rcases Session.Start c { id := id, cfg := srv.cfg } stateInitial ctl t
    with ⟨ls, _ | _ | err⟩
  · rfl
  · rfl
  · simp only [Map.Delete_Store]

end christmasd

/-! ## The packed colour encoding -/

namespace xcolor

/-- C9: for every RGB colour `c` (three `uint8` fields), `c.ToUint()` is
`c.R*65536 + c.G*256 + c.B`: it is below `2^24` (zero top byte) and has R in bits 16-23,
G in bits 8-15 and B in bits 0-7; and for every `u`, `RGBFromUint(u)` takes R, G and B
from those bit ranges of `u` and does not depend on the bits from 24 up. -/
theorem ToUint_RGBFromUint_bits (c : RGB) (u : Nat) (hc : c.valid) :
    c.ToUint = c.R * 65536 + c.G * 256 + c.B ∧
    c.ToUint < 2 ^ 24 ∧
    c.ToUint / 2 ^ 24 = 0 ∧
    c.ToUint / 2 ^ 16 % 2 ^ 8 = c.R ∧
    c.ToUint / 2 ^ 8 % 2 ^ 8 = c.G ∧
    c.ToUint % 2 ^ 8 = c.B ∧
    (RGBFromUint u).R = u / 2 ^ 16 % 2 ^ 8 ∧
    (RGBFromUint u).G = u / 2 ^ 8 % 2 ^ 8 ∧
    (RGBFromUint u).B = u % 2 ^ 8 ∧
    RGBFromUint u = RGBFromUint (u % 2 ^ 24) := by
  obtain ⟨hR, hG, hB⟩ := hc
  have h := pack_eq c.R c.G c.B hR hG hB
  have hu : c.ToUint = c.R * 65536 + c.G * 256 + c.B := h
  refine ⟨hu, ?_, ?_, ?_, ?_, ?_, ?_, ?_, ?_, ?_⟩
  · omega
  · omega
  · omega
  · omega
  · omega
  · simp only [RGBFromUint, Nat.shiftRight_eq_div_pow]; norm_num
  · simp only [RGBFromUint, Nat.shiftRight_eq_div_pow]; norm_num
  · simp only [RGBFromUint]; norm_num
  · simp only [RGBFromUint, Nat.shiftRight_eq_div_pow, RGB.mk.injEq]
    omega

theorem ToUint_RGBFromUint_bits_witness :
    RGB.valid { R := 1, G := 2, B := 3 } ∧
    RGB.ToUint { R := 1, G := 2, B := 3 } = 1 * 65536 + 2 * 256 + 3 ∧
    RGBFromUint 4278256131 = RGBFromUint (4278256131 % 2 ^ 24) :=
  ⟨by decide,
   (ToUint_RGBFromUint_bits { R := 1, G := 2, B := 3 } 4278256131 (by decide)).1,
   (ToUint_RGBFromUint_bits { R := 1, G := 2, B := 3 } 4278256131 (by decide)).2.2.2.2.2.2.2.2.2⟩

end xcolor

/-! ## The authentication state machine -/

namespace christmasd

open xcolor christmaspb

/-- C1: when `mainLoop` is waiting in state Initial and receives an `Authenticate`
message whose secret differs from the captured `Config.Secret`, it hands exactly one
message to `ws.Send`, `AuthenticateResponse{Success: false}`, and returns
`errInvalidSecret`; the state is still Initial, the controller is untouched (no event
other than the send is added to the trace), and whatever follows in the schedule is
not looked at. -/
theorem mainLoop_wrong_secret {σ : Type} (c : LEDController σ) (s : Session)
    (st0 : sessionState) (ctl0 : σ) (pre rest : List Selected) (ls : LoopState σ)
    (secret : String)
    (hrun : Session.mainLoop c s st0 ctl0 pre = (ls, none))
    (hstate : ls.state = stateInitial)
    (hsecret : secret ≠ s.cfg.Secret) :
    Session.mainLoop c s st0 ctl0 (pre ++ .Messages (some (.Authenticate secret)) :: rest)
      = ({ ls with trace := ls.trace ++ [.Send (.Authenticate false)] },
         some (.returned (some errInvalidSecret))) ∧
    (Session.mainLoop c s st0 ctl0
      (pre ++ .Messages (some (.Authenticate secret)) :: rest)).1.state = stateInitial := by
  have h : Session.mainLoop c s st0 ctl0 (pre ++ .Messages (some (.Authenticate secret)) :: rest)
      = ({ ls with trace := ls.trace ++ [.Send (.Authenticate false)] },
         some (.returned (some errInvalidSecret))) := by
    rw [mainLoop_append c s st0 ctl0 pre _ ls hrun]
    apply loop_ended
    simp [iteration, GetAuthenticate, hsecret, LoopState.emit]
  exact ⟨h, by rw [h]; exact hstate⟩

theorem mainLoop_wrong_secret_witness :
    Session.mainLoop memController demoSession stateInitial demoLEDs []
      = ((Session.mainLoop memController demoSession stateInitial demoLEDs []).1, none) ∧
    (Session.mainLoop memController demoSession stateInitial demoLEDs []).1.state
      = stateInitial ∧
    "Y" ≠ demoSession.cfg.Secret ∧
    (Session.mainLoop memController demoSession stateInitial demoLEDs
      ([] ++ .Messages (some (.Authenticate "Y")) :: [.Messages (some .GetLeds)])).1.trace
      = [.LEDs, .LEDs, .Send (.Authenticate false)] ∧
    (Session.mainLoop memController demoSession stateInitial demoLEDs
      ([] ++ .Messages (some (.Authenticate "Y")) :: [.Messages (some .GetLeds)])).2
      = some (.returned (some errInvalidSecret)) :=
  ⟨rfl, rfl, by decide,
   (congrArg (fun r => r.1.trace)
     (mainLoop_wrong_secret memController demoSession stateInitial demoLEDs []
        [.Messages (some .GetLeds)] _ "Y" rfl rfl (by decide)).1).trans rfl,
   congrArg Prod.snd
     (mainLoop_wrong_secret memController demoSession stateInitial demoLEDs []
        [.Messages (some .GetLeds)] _ "Y" rfl rfl (by decide)).1⟩

/-- C2: when `mainLoop` is waiting in state Initial and receives a message that is not
an `Authenticate` message (`GetLeds`, `SetLeds`, `GetLedCanvasInfo` or `SetLedCanvas`
with any payload; also a message without content), it returns `errNotAuthenticated`
with the loop state exactly as it was: nothing is sent and no controller method is
called. -/
theorem mainLoop_not_authenticated {σ : Type} (c : LEDController σ) (s : Session)
    (st0 : sessionState) (ctl0 : σ) (pre rest : List Selected) (ls : LoopState σ)
    (msg : Option LEDClientMessage)
    (hrun : Session.mainLoop c s st0 ctl0 pre = (ls, none))
    (hstate : ls.state = stateInitial)
    (hmsg : ∀ secret, msg ≠ some (.Authenticate secret)) :
    Session.mainLoop c s st0 ctl0 (pre ++ .Messages msg :: rest)
      = (ls, some (.returned (some errNotAuthenticated))) := by
  rw [mainLoop_append c s st0 ctl0 pre _ ls hrun]
  apply loop_ended
  have hget : GetAuthenticate msg = none := by
    rcases msg with _ | (secret | _ | leds | _ | pixels | _)
    case some.Authenticate => exact absurd rfl (hmsg secret)
    all_goals rfl
  simp [iteration, hget, hstate, stateInitial, stateAuthenticated]

theorem mainLoop_not_authenticated_witness :
    Session.mainLoop memController demoSession stateInitial demoLEDs []
      = ((Session.mainLoop memController demoSession stateInitial demoLEDs []).1, none) ∧
    (Session.mainLoop memController demoSession stateInitial demoLEDs []).1.state = stateInitial ∧
    (∀ secret, some (LEDClientMessage.SetLeds [1, 2]) ≠ some (.Authenticate secret)) ∧
    Session.mainLoop memController demoSession stateInitial demoLEDs
      ([] ++ .Messages (some (.SetLeds [1, 2])) :: [.Messages (some .GetLeds)])
      = ((Session.mainLoop memController demoSession stateInitial demoLEDs []).1,
         some (.returned (some errNotAuthenticated))) :=
  ⟨rfl, rfl, (fun _ h => by cases h),
   mainLoop_not_authenticated memController demoSession stateInitial demoLEDs []
      [.Messages (some .GetLeds)] _ (some (.SetLeds [1, 2])) rfl rfl (fun _ h => by cases h)⟩

/-- C3, as stated, fails: the session with secret "X" is Authenticated after
`Authenticate{"X"}`; a following `Authenticate{"Y"}` makes `mainLoop` return
`errInvalidSecret` ("invalid secret"), not "already authenticated". -/
theorem mainLoop_authenticated_wrong_secret_counterexample :
    Session.mainLoop memController demoSession stateInitial demoLEDs
        [.Messages (some (.Authenticate "X"))]
      = ({ state := stateAuthenticated
           ctl := demoLEDs
           bufPbLED := [0, 0]
           bufCtLED := [{ R := 0, G := 0, B := 0 }, { R := 0, G := 0, B := 0 }]
           trace := [.LEDs, .LEDs, .Send (.Authenticate true)] }, none) ∧
    (Session.mainLoop memController demoSession stateInitial demoLEDs
        [.Messages (some (.Authenticate "X")), .Messages (some (.Authenticate "Y"))]).2
      = some (.returned (some "invalid secret")) ∧
    (Session.mainLoop memController demoSession stateInitial demoLEDs
        [.Messages (some (.Authenticate "X")), .Messages (some (.Authenticate "Y"))]).2
      ≠ some (.returned (some "already authenticated")) :=
  ⟨rfl, rfl, by decide⟩

/-- C3, amended: when `mainLoop` is waiting in state Authenticated and receives an
`Authenticate` message, it returns an error and the state stays Authenticated. If the
secret equals the captured `Config.Secret` the error is "already authenticated" and
nothing is sent; if it differs, `AuthenticateResponse{Success: false}` is sent and the
error is `errInvalidSecret`. -/
theorem mainLoop_authenticate_again {σ : Type} (c : LEDController σ) (s : Session)
    (st0 : sessionState) (ctl0 : σ) (pre rest : List Selected) (ls : LoopState σ)
    (secret : String)
    (hrun : Session.mainLoop c s st0 ctl0 pre = (ls, none))
    (hstate : ls.state = stateAuthenticated) :
    Session.mainLoop c s st0 ctl0 (pre ++ .Messages (some (.Authenticate secret)) :: rest)
      = (if secret = s.cfg.Secret then
           (ls, some (.returned (some "already authenticated")))
         else
           ({ ls with trace := ls.trace ++ [.Send (.Authenticate false)] },
            some (.returned (some errInvalidSecret)))) ∧
    (Session.mainLoop c s st0 ctl0
      (pre ++ .Messages (some (.Authenticate secret)) :: rest)).1.state
      = stateAuthenticated := by
  have h : Session.mainLoop c s st0 ctl0 (pre ++ .Messages (some (.Authenticate secret)) :: rest)
      = (if secret = s.cfg.Secret then
           (ls, some (.returned (some "already authenticated")))
         else
           ({ ls with trace := ls.trace ++ [.Send (.Authenticate false)] },
            some (.returned (some errInvalidSecret)))) := by
    rw [mainLoop_append c s st0 ctl0 pre _ ls hrun]
    by_cases hsec : secret = s.cfg.Secret
    · rw [if_pos hsec]
      apply loop_ended
      have hne : ¬ ls.state = stateInitial := by
        rw [hstate]; decide
      simp [iteration, GetAuthenticate, hsec, CompareAndSwap, hne]
    · rw [if_neg hsec]
      apply loop_ended
      simp [iteration, GetAuthenticate, hsec, LoopState.emit]
  refine ⟨h, ?_⟩
  rw [h]
  split <;> exact hstate

theorem mainLoop_authenticate_again_witness :
    Session.mainLoop memController demoSession stateInitial demoLEDs
        [.Messages (some (.Authenticate "X"))]
      = ((Session.mainLoop memController demoSession stateInitial demoLEDs
            [.Messages (some (.Authenticate "X"))]).1, none) ∧
    (Session.mainLoop memController demoSession stateInitial demoLEDs
        [.Messages (some (.Authenticate "X"))]).1.state = stateAuthenticated ∧
    (Session.mainLoop memController demoSession stateInitial demoLEDs
        ([.Messages (some (.Authenticate "X"))]
          ++ .Messages (some (.Authenticate "X")) :: [.Done])).1.state
      = stateAuthenticated :=
  ⟨rfl, rfl,
   (mainLoop_authenticate_again memController demoSession stateInitial demoLEDs
      [.Messages (some (.Authenticate "X"))] [.Done] _ "X" rfl rfl).2⟩

/-- C4: along every schedule, one more `select` either leaves the session state as it
was or takes it from Initial to Authenticated, and the latter only when the case handled
is an `Authenticate` message whose secret is the captured `Config.Secret`; and once the
state is Authenticated it is Authenticated after every continuation of the schedule. -/
theorem mainLoop_state_transitions {σ : Type} (c : LEDController σ) (s : Session)
    (st0 : sessionState) (ctl0 : σ) (pre more : List Selected) (x : Selected) :
    ((Session.mainLoop c s st0 ctl0 (pre ++ [x])).1.state = (Session.mainLoop c s st0 ctl0 pre).1.state ∨
      ((Session.mainLoop c s st0 ctl0 pre).1.state = stateInitial ∧
       (Session.mainLoop c s st0 ctl0 (pre ++ [x])).1.state = stateAuthenticated ∧
       x = .Messages (some (.Authenticate s.cfg.Secret)))) ∧
    ((Session.mainLoop c s st0 ctl0 pre).1.state = stateAuthenticated →
      (Session.mainLoop c s st0 ctl0 (pre ++ more)).1.state = stateAuthenticated) := by
  rcases hpre : Session.mainLoop c s st0 ctl0 pre with ⟨ls, _ | o⟩
  · constructor
    · rw [mainLoop_append c s st0 ctl0 pre _ ls hpre, loop_one]
      exact iteration_state c s ls x
    · intro hauth
      rw [mainLoop_append c s st0 ctl0 pre _ ls hpre]
      simp only at hauth
      rcases loop_state c s more ls with h | ⟨h, _⟩
      · rw [h]; exact hauth
      · rw [hauth] at h; cases h
  · constructor
    · left
      rw [mainLoop_append_ended c s st0 ctl0 pre _ ls o hpre]
    · intro hauth
      rw [mainLoop_append_ended c s st0 ctl0 pre _ ls o hpre]
      exact hauth

theorem mainLoop_state_transitions_witness :
    (Session.mainLoop memController demoSession stateInitial demoLEDs
        [.Messages (some (.Authenticate "X"))]).1.state = stateAuthenticated ∧
    (Session.mainLoop memController demoSession stateInitial demoLEDs
        ([.Messages (some (.Authenticate "X"))]
          ++ [.Messages (some .GetLeds), .Messages (some (.SetLeds [7, 8]))])).1.state
      = stateAuthenticated :=
  ⟨rfl,
   (mainLoop_state_transitions memController demoSession stateInitial demoLEDs
      [.Messages (some (.Authenticate "X"))]
      [.Messages (some .GetLeds), .Messages (some (.SetLeds [7, 8]))] .Done).2 rfl⟩

/-! ## The commands of an authenticated session -/

/-- C5: the controller has `n` LEDs (the length of `LEDs()`, taken when `mainLoop`
starts). When `mainLoop` is waiting in state Authenticated and receives a `SetLeds`
message whose list does not have `n` entries, it returns the error
"invalid number of LEDs: <len>" with the loop state exactly as it was:
`LEDController.SetLEDs` is not called and the controller, hence what `LEDs()` returns,
is unchanged. -/
theorem mainLoop_SetLeds_invalid_count {σ : Type} (c : LEDController σ) (s : Session)
    (st0 : sessionState) (ctl0 : σ) (pre rest : List Selected) (ls : LoopState σ)
    (leds : List Nat) (n : Nat)
    (hrun : Session.mainLoop c s st0 ctl0 pre = (ls, none))
    (hstate : ls.state = stateAuthenticated)
    (hstart : (c.LEDs ctl0).length = n)
    (hlen : leds.length ≠ n) :
    Session.mainLoop c s st0 ctl0 (pre ++ .Messages (some (.SetLeds leds)) :: rest)
      = (ls, some (.returned (some ("invalid number of LEDs: " ++ toString leds.length)))) ∧
    c.LEDs (Session.mainLoop c s st0 ctl0
      (pre ++ .Messages (some (.SetLeds leds)) :: rest)).1.ctl = c.LEDs ls.ctl := by
  have hbuf : ls.bufCtLED.length = n := by
    have := (mainLoop_buf_length c s st0 ctl0 pre).2
    rw [hrun] at this
    rw [← hstart]; exact this
  have h : Session.mainLoop c s st0 ctl0 (pre ++ .Messages (some (.SetLeds leds)) :: rest)
      = (ls, some (.returned
          (some ("invalid number of LEDs: " ++ toString leds.length)))) := by
    rw [mainLoop_append c s st0 ctl0 pre _ ls hrun]
    apply loop_ended
    simp [iteration, GetAuthenticate, hstate, hbuf, hlen]
  exact ⟨h, by rw [h]⟩

theorem mainLoop_SetLeds_invalid_count_witness :
    Session.mainLoop memController demoSession stateInitial demoLEDs
        [.Messages (some (.Authenticate "X"))]
      = ((Session.mainLoop memController demoSession stateInitial demoLEDs
            [.Messages (some (.Authenticate "X"))]).1, none) ∧
    (Session.mainLoop memController demoSession stateInitial demoLEDs
        [.Messages (some (.Authenticate "X"))]).1.state = stateAuthenticated ∧
    (memController.LEDs demoLEDs).length = 2 ∧
    [5, 6, 7].length ≠ 2 ∧
    (Session.mainLoop memController demoSession stateInitial demoLEDs
        ([.Messages (some (.Authenticate "X"))]
          ++ .Messages (some (.SetLeds [5, 6, 7])) :: [.Messages (some .GetLeds)])).2
      = some (.returned (some "invalid number of LEDs: 3")) :=
  ⟨rfl, rfl, rfl, by decide,
   congrArg Prod.snd
     (mainLoop_SetLeds_invalid_count memController demoSession stateInitial demoLEDs
        [.Messages (some (.Authenticate "X"))] [.Messages (some .GetLeds)] _ [5, 6, 7] 2
        rfl rfl rfl (by decide)).1⟩

theorem mulInt_mulInt (w h : Int) : mulInt (mulInt w h) 4 = wrapInt (w * h * 4) := by
  simp only [mulInt, wrapInt]
  generalize w * h = p
  omega

theorem wrapInt_of_fits (x : Int) (hlo : -(2 ^ 63) ≤ x) (hhi : x < 2 ^ 63) :
    wrapInt x = x := by
  simp only [wrapInt]
  omega

/-- C6, as stated, fails: the canvas is `2^62` by 1, so `width*height*4` is `2^64`, and
the `int` expression `w*h*4` of the check wraps to 0. A `SetLedCanvas` message without
pixel bytes (0 differs from `2^64`) passes the check: `mainLoop` returns no error and
calls `DrawImage`. -/
theorem mainLoop_SetLedCanvas_overflow_counterexample :
    (Session.mainLoop wideController demoSession stateInitial demoLEDs
        [.Messages (some (.Authenticate "X"))]).1.state = stateAuthenticated ∧
    wideController.ImageSize demoLEDs = (2 ^ 62, 1) ∧
    ((([] : List Nat).length : Nat) : Int) ≠ 2 ^ 62 * 1 * 4 ∧
    (Session.mainLoop wideController demoSession stateInitial demoLEDs
        [.Messages (some (.Authenticate "X")), .Messages (some (.SetLedCanvas []))]).2
      = none ∧
    (Session.mainLoop wideController demoSession stateInitial demoLEDs
        [.Messages (some (.Authenticate "X")), .Messages (some (.SetLedCanvas []))]).1.trace
      = [.LEDs, .LEDs, .Send (.Authenticate true), .ImageSize,
         .DrawImage { Rect := ((0, 0), (2 ^ 62, 1)), Stride := 0, Pix := [] }] :=
  ⟨rfl, rfl, by decide, by decide, by decide⟩

/-- C6, amended: the controller's canvas is `w` by `h`. When `mainLoop` is waiting in
state Authenticated and receives a `SetLedCanvas` message whose number of pixel bytes
differs from `w*h*4` as the check computes it, in 64-bit `int` arithmetic (the product
brought into `[-2^63, 2^63)` modulo `2^64`), it returns the error "invalid image size";
the only controller method called is `ImageSize`, so `DrawImage` is not called and the
controller is unchanged. Whenever the product fits an `int`, the value compared with is
the product itself. -/
theorem mainLoop_SetLedCanvas_invalid_size {σ : Type} (c : LEDController σ) (s : Session)
    (st0 : sessionState) (ctl0 : σ) (pre rest : List Selected) (ls : LoopState σ)
    (pixels : List Nat) (w h : Int)
    (hrun : Session.mainLoop c s st0 ctl0 pre = (ls, none))
    (hstate : ls.state = stateAuthenticated)
    (hsize : c.ImageSize ls.ctl = (w, h))
    (hlen : (pixels.length : Int) ≠ wrapInt (w * h * 4)) :
    Session.mainLoop c s st0 ctl0 (pre ++ .Messages (some (.SetLedCanvas pixels)) :: rest)
      = ({ ls with trace := ls.trace ++ [.ImageSize] },
         some (.returned (some "invalid image size"))) ∧
    (-(2 ^ 63) ≤ w * h * 4 → w * h * 4 < 2 ^ 63 → wrapInt (w * h * 4) = w * h * 4) := by
  constructor
  · rw [mainLoop_append c s st0 ctl0 pre _ ls hrun]
    apply loop_ended
    rw [← mulInt_mulInt] at hlen
    simp [iteration, GetAuthenticate, hstate, hsize, hlen, LoopState.emit]
  · exact wrapInt_of_fits (w * h * 4)

theorem mainLoop_SetLedCanvas_invalid_size_witness :
    Session.mainLoop memController demoSession stateInitial demoLEDs
        [.Messages (some (.Authenticate "X"))]
      = ((Session.mainLoop memController demoSession stateInitial demoLEDs
            [.Messages (some (.Authenticate "X"))]).1, none) ∧
    (Session.mainLoop memController demoSession stateInitial demoLEDs
        [.Messages (some (.Authenticate "X"))]).1.state = stateAuthenticated ∧
    memController.ImageSize (Session.mainLoop memController demoSession stateInitial demoLEDs
        [.Messages (some (.Authenticate "X"))]).1.ctl = (2, 1) ∧
    (([1, 2, 3, 4, 5, 6, 7].length : Nat) : Int) ≠ wrapInt (2 * 1 * 4) ∧
    (Session.mainLoop memController demoSession stateInitial demoLEDs
        ([.Messages (some (.Authenticate "X"))]
          ++ .Messages (some (.SetLedCanvas [1, 2, 3, 4, 5, 6, 7])) :: [.Done])).2
      = some (.returned (some "invalid image size")) ∧
    wrapInt (2 * 1 * 4) = 2 * 1 * 4 :=
  ⟨rfl, rfl, rfl, by decide,
   congrArg Prod.snd
     (mainLoop_SetLedCanvas_invalid_size memController demoSession stateInitial demoLEDs
        [.Messages (some (.Authenticate "X"))] [.Done] _ [1, 2, 3, 4, 5, 6, 7] 2 1
        rfl rfl rfl (by decide)).1,
   (mainLoop_SetLedCanvas_invalid_size memController demoSession stateInitial demoLEDs
        [.Messages (some (.Authenticate "X"))] [.Done] _ [1, 2, 3, 4, 5, 6, 7] 2 1
        rfl rfl rfl (by decide)).2 (by decide) (by decide)⟩

/-- C7: the controller has `n` LEDs (the length of `LEDs()`, taken when `mainLoop`
starts). When `mainLoop` is waiting in state Authenticated and receives a `SetLeds`
message with exactly `n` colours, it calls `LEDController.SetLEDs` once, with the list of
`n` colours whose `i`-th element is `RGBFromUint` of the `i`-th colour of the message;
it returns an error ("failed to set LEDs: <err>") if that call reports one, and
otherwise goes on to the next `select`. -/
theorem mainLoop_SetLeds_applies {σ : Type} (c : LEDController σ) (s : Session)
    (st0 : sessionState) (ctl0 : σ) (pre : List Selected) (ls : LoopState σ)
    (leds : List Nat) (n : Nat)
    (hrun : Session.mainLoop c s st0 ctl0 pre = (ls, none))
    (hstate : ls.state = stateAuthenticated)
    (hstart : (c.LEDs ctl0).length = n)
    (hlen : leds.length = n) :
    Session.mainLoop c s st0 ctl0 (pre ++ [.Messages (some (.SetLeds leds))])
      = ({ ls with
            bufCtLED := leds.map RGBFromUint
            ctl := (c.SetLEDs ls.ctl (leds.map RGBFromUint)).1
            trace := ls.trace ++ [.SetLEDs (leds.map RGBFromUint)] },
         match (c.SetLEDs ls.ctl (leds.map RGBFromUint)).2 with
         | some err => some (.returned (some ("failed to set LEDs: " ++ err)))
         | none => none) ∧
    (leds.map RGBFromUint).length = n ∧
    (∀ i (hi : i < leds.length),
      (leds.map RGBFromUint)[i]? = some (RGBFromUint (leds.get ⟨i, hi⟩))) := by
  have hbuf : ls.bufCtLED.length = n := by
    have := (mainLoop_buf_length c s st0 ctl0 pre).2
    rw [hrun] at this
    rw [← hstart]; exact this
  refine ⟨?_, by simp [hlen], ?_⟩
  · rw [mainLoop_append c s st0 ctl0 pre _ ls hrun, loop_one]
    have hstore := rangeStore_eq_map RGBFromUint leds ls.bufCtLED (by rw [hlen, hbuf])
    simp only [iteration, GetAuthenticate, hstate, hbuf, hlen, hstore, LoopState.emit,
      ne_eq, not_true_eq_false, if_false]
    cases (c.SetLEDs ls.ctl (List.map RGBFromUint leds)).2 <;> rfl
  · intro i hi
    simp [hi]

theorem mainLoop_SetLeds_applies_witness :
    Session.mainLoop memController demoSession stateInitial demoLEDs
        [.Messages (some (.Authenticate "X"))]
      = ((Session.mainLoop memController demoSession stateInitial demoLEDs
            [.Messages (some (.Authenticate "X"))]).1, none) ∧
    (Session.mainLoop memController demoSession stateInitial demoLEDs
        [.Messages (some (.Authenticate "X"))]).1.state = stateAuthenticated ∧
    (memController.LEDs demoLEDs).length = 2 ∧
    [16909060, 5].length = 2 ∧
    (Session.mainLoop memController demoSession stateInitial demoLEDs
        ([.Messages (some (.Authenticate "X"))]
          ++ [.Messages (some (.SetLeds [16909060, 5]))])).1.trace
      = [.LEDs, .LEDs, .Send (.Authenticate true),
         .SetLEDs [{ R := 2, G := 3, B := 4 }, { R := 0, G := 0, B := 5 }]] :=
  ⟨rfl, rfl, rfl, rfl,
   (congrArg (fun r => r.1.trace)
     (mainLoop_SetLeds_applies memController demoSession stateInitial demoLEDs
        [.Messages (some (.Authenticate "X"))] _ [16909060, 5] 2
        rfl rfl rfl rfl).1).trans rfl⟩

/-- C8: the controller has `n` LEDs, when `mainLoop` starts and now. When `mainLoop` is
waiting in state Authenticated and receives a `GetLeds` message, it calls `LEDs()` once
and sends one `GetLEDsResponse` whose list has exactly `n` entries, the `i`-th being
`ToUint` of the controller's `i`-th colour; no index is out of range (the loop goes on
to the next `select`), and the controller is unchanged. -/
theorem mainLoop_GetLeds_reply {σ : Type} (c : LEDController σ) (s : Session)
    (st0 : sessionState) (ctl0 : σ) (pre : List Selected) (ls : LoopState σ) (n : Nat)
    (hrun : Session.mainLoop c s st0 ctl0 pre = (ls, none))
    (hstate : ls.state = stateAuthenticated)
    (hstart : (c.LEDs ctl0).length = n)
    (hnow : (c.LEDs ls.ctl).length = n) :
    Session.mainLoop c s st0 ctl0 (pre ++ [.Messages (some .GetLeds)])
      = ({ ls with
            bufPbLED := (c.LEDs ls.ctl).map RGB.ToUint
            trace := ls.trace ++ [.LEDs, .Send (.GetLeds ((c.LEDs ls.ctl).map RGB.ToUint))] },
         none) ∧
    ((c.LEDs ls.ctl).map RGB.ToUint).length = n ∧
    (∀ i (hi : i < (c.LEDs ls.ctl).length),
      ((c.LEDs ls.ctl).map RGB.ToUint)[i]? = some (((c.LEDs ls.ctl).get ⟨i, hi⟩).ToUint)) ∧
    c.LEDs (Session.mainLoop c s st0 ctl0 (pre ++ [.Messages (some .GetLeds)])).1.ctl
      = c.LEDs ls.ctl := by
  have hbuf : ls.bufPbLED.length = n := by
    have := (mainLoop_buf_length c s st0 ctl0 pre).1
    rw [hrun] at this
    rw [← hstart]; exact this
  have h : Session.mainLoop c s st0 ctl0 (pre ++ [.Messages (some .GetLeds)])
      = ({ ls with
            bufPbLED := (c.LEDs ls.ctl).map RGB.ToUint
            trace := ls.trace ++ [.LEDs, .Send (.GetLeds ((c.LEDs ls.ctl).map RGB.ToUint))] },
         none) := by
    rw [mainLoop_append c s st0 ctl0 pre _ ls hrun, loop_one]
    have hstore := rangeStore_eq_map RGB.ToUint (c.LEDs ls.ctl) ls.bufPbLED
      (by rw [hnow, hbuf])
    simp [iteration, GetAuthenticate, hstate, hstore, LoopState.emit]
  refine ⟨h, by simp [hnow], ?_, by rw [h]⟩
  intro i hi
  simp [hi]

theorem mainLoop_GetLeds_reply_witness :
    Session.mainLoop memController demoSession stateInitial demoLEDs
        [.Messages (some (.Authenticate "X"))]
      = ((Session.mainLoop memController demoSession stateInitial demoLEDs
            [.Messages (some (.Authenticate "X"))]).1, none) ∧
    (Session.mainLoop memController demoSession stateInitial demoLEDs
        [.Messages (some (.Authenticate "X"))]).1.state = stateAuthenticated ∧
    (memController.LEDs demoLEDs).length = 2 ∧
    (memController.LEDs (Session.mainLoop memController demoSession stateInitial demoLEDs
        [.Messages (some (.Authenticate "X"))]).1.ctl).length = 2 ∧
    (Session.mainLoop memController demoSession stateInitial demoLEDs
        ([.Messages (some (.Authenticate "X"))] ++ [.Messages (some .GetLeds)])).1.trace
      = [.LEDs, .LEDs, .Send (.Authenticate true), .LEDs, .Send (.GetLeds [66051, 263430])] :=
  ⟨rfl, rfl, rfl, rfl,
   (congrArg (fun r => r.1.trace)
     (mainLoop_GetLeds_reply memController demoSession stateInitial demoLEDs
        [.Messages (some (.Authenticate "X"))] _ 2 rfl rfl rfl rfl).1).trans rfl⟩

/-! ## The connection registry -/

/-- C10: `ServeHTTP` on a new server with secret "X"; the upgrade succeeds and the
context of the session is cancelled before any message arrives, so `mainLoop` returns
nil. When `ws.Start` returns nil too, `Session.Start` returns nil, `ServeHTTP` returns
without `http.Error`, and the entry of the terminated session is still in the registry.
When `ws.Start` returns an error instead, `Session.Start` returns it and the entry is
deleted. -/
theorem ServeHTTP_keeps_entry_when_Start_returns_nil :
    (Server.ServeHTTP (NewServer { Secret := "X" }) memController demoLEDs none 1
        { cancel := 7 } (cancelledTransport none)).response = some none ∧
    (Server.ServeHTTP (NewServer { Secret := "X" }) memController demoLEDs none 1
        { cancel := 7 } (cancelledTransport none)).srv.connections
      = [(demoSession, { cancel := 7 })] ∧
    (Server.ServeHTTP (NewServer { Secret := "X" }) memController demoLEDs none 1
        { cancel := 7 } (cancelledTransport (some "read failed"))).response
      = some (some "read failed") ∧
    (Server.ServeHTTP (NewServer { Secret := "X" }) memController demoLEDs none 1
        { cancel := 7 } (cancelledTransport (some "read failed"))).srv.connections = [] :=
  ⟨rfl, rfl, rfl, rfl⟩

theorem Map.Range_cancel (err : String) :
    ∀ (m : List (Session × sessionControl)) (calls : List (sessionControl × String)),
      Map.Range (fun _ ctrl calls => (calls ++ [(ctrl, err)], true)) m calls
        = calls ++ m.map (fun e => (e.2, err)) := by
  intro m
  induction m with
  | nil => intro calls; simp [Map.Range]
  | cons e m ih =>
    intro calls
    obtain ⟨k, v⟩ := e
    simp only [Map.Range, ih, List.map_cons, List.append_assoc, List.singleton_append]

/-- C11: for every registry and every reason, `KickAllConnections(reason)` makes one call
`ctrl.cancel(err)` per registry entry, on the control of that entry and in the order of
the entries, each with the error "kicked: <reason>" (just "kicked" when the reason is
empty); the server, and so the registry, is the same afterwards. -/
theorem KickAllConnections_cancels_each_entry (srv : Server) (reason : String) :
    (srv.KickAllConnections reason).2
      = srv.connections.map
          (fun e => (e.2, if reason = "" then "kicked" else "kicked: " ++ reason)) ∧
    (srv.KickAllConnections reason).2.length = srv.connections.length ∧
    (srv.KickAllConnections reason).1 = srv := by
  have h : (srv.KickAllConnections reason).2
      = srv.connections.map
          (fun e => (e.2, if reason = "" then "kicked" else "kicked: " ++ reason)) := by
    simp only [Server.KickAllConnections, Map.Range_cancel, List.nil_append]
    by_cases hr : reason = "" <;> simp [hr]
  exact ⟨h, by rw [h, List.length_map], rfl⟩

theorem ServeHTTP_runs_session {σ : Type} (sv : Server) (c : LEDController σ) (ctl : σ)
    (id : Nat) (cancel : sessionControl) (t : Transport) :
    (Server.ServeHTTP sv c ctl none id cancel t).session
      = some { id := id, cfg := sv.cfg } ∧
    (Server.ServeHTTP sv c ctl none id cancel t).run
      = some (Session.Start c { id := id, cfg := sv.cfg } stateInitial ctl t).1 ∧
    (Server.ServeHTTP sv c ctl none id cancel t).response
      = (Session.Start c { id := id, cfg := sv.cfg } stateInitial ctl t).2 ∧
    (Server.ServeHTTP sv c ctl none id cancel t).srv
      = { cfg := sv.cfg
          connections :=
            match (Session.Start c { id := id, cfg := sv.cfg } stateInitial ctl t).2 with
            | some (some _) => Map.Delete sv.connections { id := id, cfg := sv.cfg }
            | _ => Map.Store sv.connections { id := id, cfg := sv.cfg } cancel } := by
  simp only [Server.ServeHTTP, SessionUpgrade]
  rcases Session.Start c { id := id, cfg := sv.cfg } stateInitial ctl t
    with ⟨ls1, _ | _ | err⟩
  · exact ⟨rfl, rfl, rfl, rfl⟩
  · exact ⟨rfl, rfl, rfl, rfl⟩
  · refine ⟨rfl, rfl, rfl, ?_⟩
    simp only [Map.Delete_Store]

theorem ServeHTTP_first_Authenticate {σ : Type} (sv : Server) (c : LEDController σ)
    (ctl : σ) (id : Nat) (cancel : sessionControl) (t : Transport) (secret : String) :
    (Server.ServeHTTP sv c ctl none id cancel
        { t with schedule := [.Messages (some (.Authenticate secret))] }).run.map
        (fun ls => (ls.state, ls.trace))
      = some (if secret = sv.cfg.Secret then
                (stateAuthenticated, [.LEDs, .LEDs, .Send (.Authenticate true)])
              else
                (stateInitial,
                 [.LEDs, .LEDs, .Send (.Authenticate false),
                  .SendError errInvalidSecret])) := by
  rw [(ServeHTTP_runs_session sv c ctl id cancel _).2.1]
  by_cases hsec : secret = sv.cfg.Secret
  · simp [Session.Start, Session.mainLoop, loop, iteration, GetAuthenticate, hsec,
      CompareAndSwap, LoopState.emit]
  · simp [Session.Start, Session.mainLoop, loop, iteration, GetAuthenticate, hsec,
      LoopState.emit]

/-- C12: `SetConfig(cfg)` replaces the server's configuration and leaves the registry,
with the sessions in it and the configuration each one captured, as it was; whatever the
server's configuration is, a session rejects an `Authenticate` as an invalid secret
exactly when the secret differs from the one the session captured. A `ServeHTTP` after
`SetConfig(cfg)` creates the session with the new configuration, registers that session
(the entry is deleted again only when `Start` returns an error), and runs `Session.Start`
on it: a first message `Authenticate{secret}` is accepted (state Authenticated, success
sent) exactly when `secret` is the new secret, and is otherwise answered with a failure
and `errInvalidSecret`. A `ServeHTTP` before `SetConfig` does the same with the old
configuration. -/
theorem SetConfig_affects_only_later_sessions {σ : Type} (srv : Server) (cfg : Config)
    (c : LEDController σ) (ctl : σ) (id : Nat) (cancel : sessionControl) (t : Transport)
    (sess : Session) (ls : LoopState σ) (secret : String) :
    (srv.SetConfig cfg).cfg = cfg ∧
    (srv.SetConfig cfg).connections = srv.connections ∧
    (Server.ServeHTTP srv c ctl none id cancel t).session
      = some { id := id, cfg := srv.cfg } ∧
    (Server.ServeHTTP (srv.SetConfig cfg) c ctl none id cancel t).session
      = some { id := id, cfg := cfg } ∧
    ((iteration c sess ls (.Messages (some (.Authenticate secret)))).2
        = some (.returned (some errInvalidSecret))
      ↔ secret ≠ sess.cfg.Secret) ∧
    (Server.ServeHTTP (srv.SetConfig cfg) c ctl none id cancel t).run
      = some (Session.Start c { id := id, cfg := cfg } stateInitial ctl t).1 ∧
    (Server.ServeHTTP (srv.SetConfig cfg) c ctl none id cancel t).response
      = (Session.Start c { id := id, cfg := cfg } stateInitial ctl t).2 ∧
    (Server.ServeHTTP (srv.SetConfig cfg) c ctl none id cancel t).srv
      = { cfg := cfg
          connections :=
            match (Session.Start c { id := id, cfg := cfg } stateInitial ctl t).2 with
            | some (some _) => Map.Delete srv.connections { id := id, cfg := cfg }
            | _ => Map.Store srv.connections { id := id, cfg := cfg } cancel } ∧
    (Server.ServeHTTP (srv.SetConfig cfg) c ctl none id cancel
        { t with schedule := [.Messages (some (.Authenticate secret))] }).run.map
        (fun ls => (ls.state, ls.trace))
      = some (if secret = cfg.Secret then
                (stateAuthenticated, [.LEDs, .LEDs, .Send (.Authenticate true)])
              else
                (stateInitial,
                 [.LEDs, .LEDs, .Send (.Authenticate false),
                  .SendError errInvalidSecret])) ∧
    (Server.ServeHTTP srv c ctl none id cancel
        { t with schedule := [.Messages (some (.Authenticate secret))] }).run.map
        (fun ls => (ls.state, ls.trace))
      = some (if secret = srv.cfg.Secret then
                (stateAuthenticated, [.LEDs, .LEDs, .Send (.Authenticate true)])
              else
                (stateInitial,
                 [.LEDs, .LEDs, .Send (.Authenticate false),
                  .SendError errInvalidSecret])) := by
  have hnew := ServeHTTP_runs_session (srv.SetConfig cfg) c ctl id cancel t
  refine ⟨rfl, rfl, (ServeHTTP_runs_session srv c ctl id cancel t).1, hnew.1, ?_,
    hnew.2.1, hnew.2.2.1, hnew.2.2.2,
    ServeHTTP_first_Authenticate (srv.SetConfig cfg) c ctl id cancel t secret,
    ServeHTTP_first_Authenticate srv c ctl id cancel t secret⟩
  by_cases hsec : secret = sess.cfg.Secret
  · by_cases hst : ls.state = stateInitial
    · simp [iteration, GetAuthenticate, hsec, CompareAndSwap, hst, LoopState.emit]
    · simp [iteration, GetAuthenticate, hsec, CompareAndSwap, hst, errInvalidSecret]
  · simp [iteration, GetAuthenticate, hsec, LoopState.emit]

/-! ## The closed message source -/

theorem loop_nil_messages {σ : Type} (c : LEDController σ) (s : Session)
    (ls : LoopState σ) (hstate : ls.state = stateAuthenticated) :
    ∀ (k : Nat) (xs : List Selected),
      loop c s ls (List.replicate k (.Messages none) ++ xs) = loop c s ls xs := by
  intro k
  induction k with
  | zero => intro xs; rfl
  | succ k ih =>
    intro xs
    have hit : iteration c s ls (.Messages none) = (ls, none) := by
      simp [iteration, GetAuthenticate, hstate]
    simp only [List.replicate_succ, List.cons_append, loop, hit]
    exact ih xs

/-- C13, as stated, fails. In state Initial the nil message makes `mainLoop` return
`errNotAuthenticated`, and `Session.Start` hands that error to `ws.SendError`. In state
Authenticated (after `Authenticate{"X"}`) `mainLoop` has not returned after the nil
message: it is back in the `select`. -/
theorem mainLoop_nil_message_counterexample :
    (Session.mainLoop memController demoSession stateInitial demoLEDs [.Messages none]).2
      = some (.returned (some "not authenticated")) ∧
    (Session.Start memController demoSession stateInitial demoLEDs closedTransport).1.trace
      = [.LEDs, .LEDs, .SendError "not authenticated"] ∧
    (Session.mainLoop memController demoSession stateInitial demoLEDs
        [.Messages (some (.Authenticate "X"))]).1.state = stateAuthenticated ∧
    (Session.mainLoop memController demoSession stateInitial demoLEDs
        [.Messages (some (.Authenticate "X")), .Messages none]).2 = none :=
  ⟨rfl, rfl, rfl, rfl⟩

/-- C13, amended: when `mainLoop` is waiting and a receive yields the nil message, no
controller method is called and nothing is handed to `ws.Send` (loop state and trace stay
as they are). In a state other than Authenticated `mainLoop` returns
`errNotAuthenticated`, which `Session.Start` hands to `ws.SendError`. In state
Authenticated it returns no error: after any number of nil messages it is still in the
`select`, and it returns nil, with nothing sent, when `ctx.Done()` is selected. -/
theorem mainLoop_nil_message {σ : Type} (c : LEDController σ) (s : Session)
    (st0 : sessionState) (ctl0 : σ) (pre rest : List Selected) (ls : LoopState σ)
    (t : Transport) (k : Nat)
    (hrun : Session.mainLoop c s st0 ctl0 pre = (ls, none)) :
    (ls.state ≠ stateAuthenticated →
      Session.mainLoop c s st0 ctl0 (pre ++ .Messages none :: rest)
        = (ls, some (.returned (some errNotAuthenticated))) ∧
      (Session.Start c s st0 ctl0 { t with schedule := pre ++ .Messages none :: rest }).1
        = { ls with trace := ls.trace ++ [.SendError errNotAuthenticated] }) ∧
    (ls.state = stateAuthenticated →
      Session.mainLoop c s st0 ctl0 (pre ++ List.replicate k (.Messages none)) = (ls, none) ∧
      Session.mainLoop c s st0 ctl0 (pre ++ (List.replicate k (.Messages none) ++ .Done :: rest))
        = (ls, some (.returned none))) := by
  constructor
  · intro hstate
    have h : Session.mainLoop c s st0 ctl0 (pre ++ .Messages none :: rest)
        = (ls, some (.returned (some errNotAuthenticated))) := by
      rw [mainLoop_append c s st0 ctl0 pre _ ls hrun]
      apply loop_ended
      simp [iteration, GetAuthenticate, hstate]
    refine ⟨h, ?_⟩
    simp only [Session.Start, h, LoopState.emit]
  · intro hstate
    constructor
    · rw [mainLoop_append c s st0 ctl0 pre _ ls hrun]
      have := loop_nil_messages c s ls hstate k []
      simpa [loop] using this
    · rw [mainLoop_append c s st0 ctl0 pre _ ls hrun, loop_nil_messages c s ls hstate k]
      apply loop_ended
      rfl

theorem mainLoop_nil_message_witness :
    Session.mainLoop memController demoSession stateInitial demoLEDs
        [.Messages (some (.Authenticate "X"))]
      = ((Session.mainLoop memController demoSession stateInitial demoLEDs
            [.Messages (some (.Authenticate "X"))]).1, none) ∧
    (Session.mainLoop memController demoSession stateInitial demoLEDs
        [.Messages (some (.Authenticate "X"))]).1.state = stateAuthenticated ∧
    (Session.mainLoop memController demoSession stateInitial demoLEDs
        ([.Messages (some (.Authenticate "X"))]
          ++ (List.replicate 3 (.Messages none) ++ .Done :: [.Messages (some .GetLeds)]))).2
      = some (.returned none) ∧
    Session.mainLoop memController demoSession stateInitial demoLEDs []
      = ((Session.mainLoop memController demoSession stateInitial demoLEDs []).1, none) ∧
    (Session.mainLoop memController demoSession stateInitial demoLEDs []).1.state
      ≠ stateAuthenticated ∧
    (Session.mainLoop memController demoSession stateInitial demoLEDs
        ([] ++ .Messages none :: [.Done])).2
      = some (.returned (some errNotAuthenticated)) :=
  ⟨rfl, rfl,
   congrArg Prod.snd
     ((mainLoop_nil_message memController demoSession stateInitial demoLEDs
        [.Messages (some (.Authenticate "X"))] [.Messages (some .GetLeds)] _
        closedTransport 3 rfl).2 rfl).2,
   rfl, (by decide),
   congrArg Prod.snd
     ((mainLoop_nil_message memController demoSession stateInitial demoLEDs
        [] [.Done] _ closedTransport 0 rfl).1 (by decide)).1⟩

end christmasd
